import Mathlib

/-!
Verification of the `twofactor` TOTP library (totp.go) against its
natural-language specification.

The Go source is shallowly embedded: byte slices become `List Nat`
(each entry a byte value), Go `int`/`int64` become `Int` with explicit
`% 2^32` / `% 2^64` where wraparound matters, strings used as opaque
byte containers become `List Nat`, token strings stay `String`, and
the HMAC / SHA-256 primitives (external crypto library calls) are
abstracted as function parameters.  Wall-clock time is passed in as an
explicit Unix-seconds parameter.
-/

namespace Twofactor

/-- `BACKOFF_MINUTES` from totp.go: minutes to wait before another verification. -/
def BACKOFF_MINUTES : Int := 5

/-- `MAX_FAILURES` from totp.go: failures after which the user must wait out the backoff. -/
def MAX_FAILURES : Int := 3

/-- `COUNTER_SIZE` from totp.go: byte width of the RFC 4226 counter. -/
def COUNTER_SIZE : Nat := 8

/-- The closed set of hash variants the library dispatches over
(`crypto.SHA1`, `crypto.SHA256`, `crypto.SHA512`). -/
inductive HashT where
  | sha1
  | sha256
  | sha512
deriving DecidableEq

/-- Digest output size in bytes of each hash variant (`hash.Hash.Size()`). -/
def digestSize : HashT → Nat
  | .sha1 => 20
  | .sha256 => 32
  | .sha512 => 64

/-- `truncateHash` from totp.go: RFC 4226 dynamic truncation.  The low
nibble of byte `size-1` selects an offset; a 31-bit big-endian value is
read there (`&0x7f` masks the top bit of the first byte, the other
three bytes are masked with `&0xff` as in the source). -/
def truncateHash (hmacResult : List Nat) (size : Nat) : Nat :=
  let offset := hmacResult.getD (size - 1) 0 &&& 0xf
  (((hmacResult.getD offset 0) &&& 0x7f) <<< 24) |||
    (((hmacResult.getD (offset + 1) 0) &&& 0xff) <<< 16) |||
    (((hmacResult.getD (offset + 2) 0) &&& 0xff) <<< 8) |||
    ((hmacResult.getD (offset + 3) 0) &&& 0xff)

/-- Left-pad a string with `'0'` up to `width` characters, the effect of
Go's `fmt.Sprintf("%0*d", width, n)` on a non-negative number. -/
def zeroPad (width : Nat) (s : String) : String :=
  String.mk (List.replicate (width - s.length) '0') ++ s

/-- `calculateToken` from totp.go.  The Go function receives an
initialized `hash.Hash` (the keyed HMAC); here that object is the
function `hF` mapping the written counter bytes to the digest, together
with its digest size `hSize` (`h.Size()`).  `digits` is a Go `int`.
The three `if` statements assigning `mod` are kept in source order. -/
def calculateToken (counter : List Nat) (digits : Int) (hF : List Nat → List Nat)
    (hSize : Nat) : String :=
  let hashResult := hF counter
  let result := truncateHash hashResult hSize
  let mod0 : Nat := 0
  let mod1 := if digits = 8 then result % 100000000 else mod0
  let mod2 := if digits = 7 then result % 10000000 else mod1
  let mod3 := if digits = 6 then result % 1000000 else mod2
  zeroPad digits.toNat (Nat.repr mod3)

/-- The RFC 4226 dynamic-truncation value exactly as the spec words it:
the offset is the low nibble of the *last* HMAC byte, and the value is
`((mac[offset] & 0x7F) << 24) | (mac[offset+1] << 16) | (mac[offset+2] << 8)
| mac[offset+3]`.  Spec-side definition, to be compared with the
source-side `truncateHash`. -/
def dynamicTruncationSpec (mac : List Nat) : Nat :=
  let offset := mac.getD (mac.length - 1) 0 &&& 0xf
  (((mac.getD offset 0) &&& 0x7f) <<< 24) |||
    ((mac.getD (offset + 1) 0) <<< 16) |||
    ((mac.getD (offset + 2) 0) <<< 8) |||
    (mac.getD (offset + 3) 0)

set_option maxRecDepth 4096

lemma land_255_of_lt {b : Nat} (hb : b < 256) : b &&& 255 = b := by
  have h : b &&& 2 ^ 8 - 1 = b % 2 ^ 8 := Nat.and_pow_two_sub_one_eq_mod b 8
  norm_num at h
  rw [h, Nat.mod_eq_of_lt hb]

lemma getD_lt_256 (l : List Nat) (hl : ∀ b ∈ l, b < 256) (i : Nat) :
    l.getD i 0 < 256 := by
  rcases h : l[i]? with _ | b
  · simp [List.getD, h]
  · have hmem : b ∈ l := List.getElem?_mem h
    simpa [List.getD, h] using hl b hmem

/-- On a byte list (entries `< 256`) whose declared size is its length,
`truncateHash` computes exactly the spec's dynamic-truncation value. -/
lemma truncateHash_eq_spec (mac : List Nat) (size : Nat)
    (hlen : mac.length = size) (hbytes : ∀ b ∈ mac, b < 256) :
    truncateHash mac size = dynamicTruncationSpec mac := by
  subst hlen
  unfold truncateHash dynamicTruncationSpec
  simp only
  rw [land_255_of_lt (getD_lt_256 mac hbytes _),
    land_255_of_lt (getD_lt_256 mac hbytes _),
    land_255_of_lt (getD_lt_256 mac hbytes _)]

/-- C1: for every keyed HMAC digest function (this covers every key and
every hash variant in SHA-1/SHA-256/SHA-512), every counter byte string,
and every digit count in 6..8, `calculateToken` over `truncateHash`
returns the decimal string of the RFC 4226 dynamic-truncation value
(offset = low nibble of the last HMAC byte, 31-bit big-endian value at
that offset with the top bit masked) modulo `10^digits`, zero-padded to
`digits` characters. -/
theorem calculateToken_rfc4226 (hF : List Nat → List Nat) (counter : List Nat)
    (digits : Int) (hSize : Nat)
    (hd : digits = 6 ∨ digits = 7 ∨ digits = 8)
    (hlen : (hF counter).length = hSize)
    (hbytes : ∀ b ∈ hF counter, b < 256) :
    calculateToken counter digits hF hSize =
      zeroPad digits.toNat
        (Nat.repr (dynamicTruncationSpec (hF counter) % 10 ^ digits.toNat)) := by
  have ht := truncateHash_eq_spec (hF counter) hSize hlen hbytes
  rcases hd with h | h | h <;> subst h <;>
    simp [calculateToken, ht]

/-- Witness for C1 at a concrete digest function (constant 20-byte
all-zero digest), counter, and 6 digits. -/
theorem calculateToken_rfc4226_witness :
    calculateToken (List.replicate 8 0) 6 (fun _ => List.replicate 20 0) 20 =
      zeroPad (Int.toNat 6)
        (Nat.repr (dynamicTruncationSpec ((fun (_ : List Nat) => List.replicate 20 0)
          (List.replicate 8 0)) % 10 ^ (Int.toNat 6))) :=
  calculateToken_rfc4226 (fun _ => List.replicate 20 0) (List.replicate 8 0) 6 20
    (by decide) (by decide) (by decide)

/-- 4-byte big-endian encoding of a natural number (low 32 bits). -/
def bigEndian4 (m : Nat) : List Nat :=
  [m / 16777216 % 256, m / 65536 % 256, m / 256 % 256, m % 256]

/-- Modelled from the spec: util.go's `bigEndianInt` (absent from src/)
encodes a Go `int` as 4 big-endian bytes, truncating to 32 bits
(two's complement for negative values). -/
def bigEndianInt (n : Int) : List Nat :=
  bigEndian4 (n % 4294967296).toNat

/-- Value of 4 big-endian bytes as a natural number. -/
def natFromBigEndian4 (b : List Nat) : Nat :=
  b.getD 0 0 * 16777216 + b.getD 1 0 * 65536 + b.getD 2 0 * 256 + b.getD 3 0

/-- Modelled from the spec: util.go's `intFromBigEndian` (absent from
src/) decodes 4 big-endian bytes as a signed 32-bit integer. -/
def intFromBigEndian (b : List Nat) : Int :=
  if natFromBigEndian4 b < 2147483648 then (natFromBigEndian4 b : Int)
  else (natFromBigEndian4 b : Int) - 4294967296

/-- 8-byte big-endian encoding of a natural number (low 64 bits). -/
def bigEndian8 (m : Nat) : List Nat :=
  [m / 72057594037927936 % 256, m / 281474976710656 % 256,
    m / 1099511627776 % 256, m / 4294967296 % 256,
    m / 16777216 % 256, m / 65536 % 256, m / 256 % 256, m % 256]

/-- Modelled from the spec: util.go's `bigEndianUint64` (absent from
src/) encodes a Go `uint64` as 8 big-endian bytes; a negative model
value stands for the two's-complement bit pattern. -/
def bigEndianUint64 (n : Int) : List Nat :=
  bigEndian8 (n % 18446744073709551616).toNat

/-- Modelled from the spec: util.go's `uint64FromBigEndian` (absent
from src/) reads 8 big-endian bytes as an unsigned 64-bit value. -/
def uint64FromBigEndian (b : List Nat) : Nat :=
  b.getD 0 0 * 72057594037927936 + b.getD 1 0 * 281474976710656 +
    b.getD 2 0 * 1099511627776 + b.getD 3 0 * 4294967296 +
    b.getD 4 0 * 16777216 + b.getD 5 0 * 65536 + b.getD 6 0 * 256 + b.getD 7 0

/-- Go's `int64(u)` reinterpretation of an unsigned 64-bit value
(`TOTPFromBytes` applies it to the stored verification time). -/
def int64OfUInt64 (m : Nat) : Int :=
  if m < 9223372036854775808 then (m : Int) else (m : Int) - 18446744073709551616

/-- Modelled from the spec: util.go's `round` (absent from src/) maps a
float to the nearest integer; on an exactly-representable integer value
it is the identity, which is how it is modelled here. -/
def goRound (n : Int) : Int := n

/-- Round a natural number to the nearest multiple of `step`, ties to
the even multiple (IEEE round-to-nearest-even). -/
def roundNearestEven (n step : Nat) : Nat :=
  let q := n / step
  let r := n % step
  if 2 * r < step then q * step
  else if step < 2 * r then (q + 1) * step
  else if q % 2 = 0 then q * step else (q + 1) * step

/-- The `float64` value of a natural number: exact below `2^53`,
otherwise rounded to the nearest representable double — a multiple of
`2^(log2 n - 52)` — with ties to even. -/
def floatOfNat (m : Nat) : Nat :=
  if m < 9007199254740992 then m
  else roundNearestEven m (2 ^ (m.log2 - 52))

/-- The `float64(...)` conversion at totp.go:190 applied to the integer
quotient: Go converts an int64 to float64 with round-to-nearest-even,
which is exact only for magnitudes below `2^53`. -/
def goFloat64OfInt (n : Int) : Int :=
  if n < 0 then -(floatOfNat (-n).toNat : Int) else (floatOfNat n.toNat : Int)

/-- Below `2^53` the `float64` conversion of a non-negative integer is
exact. -/
lemma goFloat64OfInt_exact (n : Int) (h0 : 0 ≤ n)
    (h1 : n < 9007199254740992) : goFloat64OfInt n = n := by
  unfold goFloat64OfInt floatOfNat
  rw [if_neg (by omega), if_pos (by omega)]
  omega

/-- `increment` from totp.go: `T := float64(ts / int64(stepSize))`
(Go's `/` on int64 truncates toward zero, hence `Int.tdiv`), then
`round(T)`. -/
def increment (ts stepSize : Int) : Int :=
  goRound (goFloat64OfInt (ts.tdiv stepSize))

lemma natFromBigEndian4_bigEndian4 (m : Nat) (hm : m < 4294967296) :
    natFromBigEndian4 (bigEndian4 m) = m := by
  simp [natFromBigEndian4, bigEndian4]
  omega

lemma bigEndian8_length (m : Nat) : (bigEndian8 m).length = 8 := rfl

lemma uint64FromBigEndian_bigEndian8 (m : Nat) (hm : m < 18446744073709551616) :
    uint64FromBigEndian (bigEndian8 m) = m := by
  simp [uint64FromBigEndian, bigEndian8]
  omega

/-- C5 (amended): for every non-negative `unixSeconds` below `2^52`
(where the `float64` conversion and the final rounding are both exact)
and positive `stepSize`, `increment` computes `floor(ts / stepSize)`,
and `bigEndianUint64` encodes it as the 8-byte unsigned big-endian
value of that quotient; the RFC 6238 test vector
`increment 1438601387 30 = 47953379` holds. -/
theorem increment_floor_c5 :
    (∀ ts stepSize : Int, 0 ≤ ts → ts < 4503599627370496 → 0 < stepSize →
      increment ts stepSize = Int.fdiv ts stepSize ∧
      bigEndianUint64 (increment ts stepSize) =
        bigEndian8 (Int.fdiv ts stepSize).toNat) ∧
    increment 1438601387 30 = 47953379 := by
  constructor
  · intro ts stepSize hts hts52 hstep
    have htd : ts.tdiv stepSize = ts / stepSize :=
      Int.tdiv_eq_ediv hts (le_of_lt hstep)
    have hfd : Int.fdiv ts stepSize = ts / stepSize :=
      Int.fdiv_eq_ediv ts (le_of_lt hstep)
    have hq0 : 0 ≤ ts / stepSize := Int.ediv_nonneg hts (le_of_lt hstep)
    have hq1 : ts / stepSize ≤ ts := Int.ediv_le_self stepSize hts
    have hex : goFloat64OfInt (ts / stepSize) = ts / stepSize :=
      goFloat64OfInt_exact _ hq0 (by omega)
    have heq : increment ts stepSize = Int.fdiv ts stepSize := by
      simp [increment, goRound, hex, htd, hfd]
    refine ⟨heq, ?_⟩
    rw [heq]
    have h2 : Int.fdiv ts stepSize % 18446744073709551616 =
        Int.fdiv ts stepSize :=
      Int.emod_eq_of_lt (by omega) (by omega)
    simp only [bigEndianUint64, h2]
  · decide

/-- Witness for C5 at `(59, 30)`: quotient 1, encoded as big-endian 1. -/
theorem increment_floor_c5_witness :
    increment 59 30 = Int.fdiv 59 30 ∧
      bigEndianUint64 (increment 59 30) = bigEndian8 (Int.fdiv 59 30).toNat :=
  increment_floor_c5.1 59 30 (by decide) (by decide) (by decide)

/-- Counterexample for C5 as stated: at the negative Unix second `-59`
with step 30, the floor is `-2`, but `increment` (whose in-source
division truncates toward zero) does not produce the 8-byte unsigned
big-endian encoding of that floor. -/
theorem increment_neg_counterexample :
    Int.fdiv (-59) 30 = -2 ∧
      bigEndianUint64 (increment (-59) 30) ≠ bigEndianUint64 (-2) := by
  constructor
  · decide
  · decide

/-- The `totp` struct from totp.go.  Byte slices and Go strings used as
byte containers are `List Nat`; `lastVerificationTime` is kept as its
Unix-seconds value (the only way the source ever consumes it). -/
structure Totp where
  key : List Nat
  counter : List Nat
  digits : Int
  issuer : List Nat
  account : List Nat
  stepSize : Int
  clientOffset : Int
  totalVerificationFailures : Int
  lastVerificationTime : Int
  hashFunction : HashT
deriving DecidableEq

/-- `getIntCounter` from totp.go. -/
def getIntCounter (o : Totp) : Nat := uint64FromBigEndian o.counter

/-- `synchronizeCounter` from totp.go. -/
def synchronizeCounter (o : Totp) (offset : Int) : Totp :=
  { o with clientOffset := offset }

/-- `validBackoffTime` from totp.go: true when the current time is
strictly after `lastVerification + BACKOFF_MINUTES` (in seconds). -/
def validBackoffTime (lastVerification now : Int) : Bool :=
  decide (lastVerification + BACKOFF_MINUTES * 60 < now)

/-- `incrementCounter` from totp.go: recomputes the 8-byte counter from
the wall clock (`now`, supplied explicitly here) shifted by
`index * stepSize` and `clientOffset * stepSize` seconds. -/
def incrementCounter (o : Totp) (index : Int) (now : Int) : Totp :=
  let ts := now + index * o.stepSize + o.clientOffset * o.stepSize
  { o with counter := bigEndianUint64 (increment ts o.stepSize) }

/-- `calculateTOTP` from totp.go: picks the keyed HMAC for the
credential's hash variant (abstracted as `hmacF`), refreshes the
counter, and produces the token; returns the mutated credential
alongside the token string. -/
def calculateTOTP (hmacF : HashT → List Nat → List Nat → List Nat)
    (o : Totp) (index now : Int) : Totp × String :=
  let h := hmacF o.hashFunction o.key
  let o2 := incrementCounter o index now
  (o2, calculateToken o2.counter o2.digits h (digestSize o.hashFunction))

/-- The token produced for a given step index (projection of
`calculateTOTP`). -/
def tokenAt (hmacF : HashT → List Nat → List Nat → List Nat)
    (o : Totp) (index now : Int) : String :=
  (calculateTOTP hmacF o index now).2

/-- `OTP` from totp.go: the current-step token. -/
def OTP (hmacF : HashT → List Nat → List Nat → List Nat)
    (o : Totp) (now : Int) : Totp × String :=
  calculateTOTP hmacF o 0 now

/-- Outcome of `Validate` (`nil` = `ok`, otherwise the three error
values the source can return). -/
inductive VResult where
  | ok
  | invalidInput
  | locked
  | mismatch
deriving DecidableEq

/-- The token-comparison tail of `Validate` (totp.go lines 128-162):
hash the user code with SHA-256 (abstracted, with hex encoding, as
`shaF`), compute the three candidate tokens (each `calculateTOTP` call
overwriting the counter), and compare hashed codes in source order:
current step, previous step (resync to -1), next step (resync to +1),
otherwise record the failure. -/
def validateCompare (hmacF : HashT → List Nat → List Nat → List Nat)
    (shaF : String → String) (o : Totp) (userCode : String) (now : Int) :
    Totp × VResult :=
  let userToken := shaF userCode
  let r0 := calculateTOTP hmacF o (-1) now
  let r1 := calculateTOTP hmacF r0.1 0 now
  let r2 := calculateTOTP hmacF r1.1 1 now
  if shaF r1.2 = userToken then (r2.1, .ok)
  else if shaF r0.2 = userToken then (synchronizeCounter r2.1 (-1), .ok)
  else if shaF r2.2 = userToken then (synchronizeCounter r2.1 1, .ok)
  else ({ r2.1 with
            totalVerificationFailures := r2.1.totalVerificationFailures + 1,
            lastVerificationTime := now }, .mismatch)

/-- `Validate` from totp.go: empty-input check, lockout check, lazy
failure reset, then the token comparison.  The source guards the reset
with its own `if`; here the gate is expressed as the equivalent branch
on the same two conditions. -/
def validate (hmacF : HashT → List Nat → List Nat → List Nat)
    (shaF : String → String) (o : Totp) (userCode : String) (now : Int) :
    Totp × VResult :=
  if userCode = "" then (o, .invalidInput)
  else if MAX_FAILURES ≤ o.totalVerificationFailures ∧
      validBackoffTime o.lastVerificationTime now = false then (o, .locked)
  else if MAX_FAILURES ≤ o.totalVerificationFailures ∧
      validBackoffTime o.lastVerificationTime now = true then
    validateCompare hmacF shaF { o with totalVerificationFailures := 0 } userCode now
  else validateCompare hmacF shaF o userCode now

lemma validate_empty_eq (hmacF : HashT → List Nat → List Nat → List Nat)
    (shaF : String → String) (o : Totp) (now : Int) :
    validate hmacF shaF o "" now = (o, VResult.invalidInput) := rfl

/-- `validateCompare` rewritten with each token expressed over the
original credential: `calculateTOTP` only overwrites the counter, and
neither the token nor the final state reads the incoming counter. -/
lemma validateCompare_eq (hmacF : HashT → List Nat → List Nat → List Nat)
    (shaF : String → String) (o : Totp) (userCode : String) (now : Int) :
    validateCompare hmacF shaF o userCode now =
      (if shaF (tokenAt hmacF o 0 now) = shaF userCode then
        ((calculateTOTP hmacF o 1 now).1, VResult.ok)
      else if shaF (tokenAt hmacF o (-1) now) = shaF userCode then
        (synchronizeCounter (calculateTOTP hmacF o 1 now).1 (-1), VResult.ok)
      else if shaF (tokenAt hmacF o 1 now) = shaF userCode then
        (synchronizeCounter (calculateTOTP hmacF o 1 now).1 1, VResult.ok)
      else ({ (calculateTOTP hmacF o 1 now).1 with
                totalVerificationFailures := o.totalVerificationFailures + 1,
                lastVerificationTime := now }, VResult.mismatch)) := rfl

lemma calculateTOTP_fst_clientOffset (hmacF : HashT → List Nat → List Nat → List Nat)
    (o : Totp) (index now : Int) :
    (calculateTOTP hmacF o index now).1.clientOffset = o.clientOffset := rfl

lemma calculateTOTP_fst_failures (hmacF : HashT → List Nat → List Nat → List Nat)
    (o : Totp) (index now : Int) :
    (calculateTOTP hmacF o index now).1.totalVerificationFailures =
      o.totalVerificationFailures := rfl

lemma validateCompare_snd_ne_locked (hmacF : HashT → List Nat → List Nat → List Nat)
    (shaF : String → String) (o : Totp) (userCode : String) (now : Int) :
    (validateCompare hmacF shaF o userCode now).2 ≠ VResult.locked := by
  rw [validateCompare_eq]
  split
  · simp
  · split
    · simp
    · split <;> simp

lemma validateCompare_clientOffset_cases
    (hmacF : HashT → List Nat → List Nat → List Nat)
    (shaF : String → String) (o : Totp) (userCode : String) (now : Int) :
    (validateCompare hmacF shaF o userCode now).1.clientOffset = o.clientOffset ∨
      ((validateCompare hmacF shaF o userCode now).2 = VResult.ok ∧
        ((validateCompare hmacF shaF o userCode now).1.clientOffset = -1 ∨
          (validateCompare hmacF shaF o userCode now).1.clientOffset = 1)) := by
  rw [validateCompare_eq]
  split
  · exact Or.inl (calculateTOTP_fst_clientOffset hmacF o 1 now)
  · split
    · exact Or.inr ⟨rfl, Or.inl rfl⟩
    · split
      · exact Or.inr ⟨rfl, Or.inr rfl⟩
      · exact Or.inl (calculateTOTP_fst_clientOffset hmacF o 1 now)

lemma validate_clientOffset_cases (hmacF : HashT → List Nat → List Nat → List Nat)
    (shaF : String → String) (o : Totp) (userCode : String) (now : Int) :
    (validate hmacF shaF o userCode now).1.clientOffset = o.clientOffset ∨
      ((validate hmacF shaF o userCode now).2 = VResult.ok ∧
        ((validate hmacF shaF o userCode now).1.clientOffset = -1 ∨
          (validate hmacF shaF o userCode now).1.clientOffset = 1)) := by
  unfold validate
  split
  · exact Or.inl rfl
  · split
    · exact Or.inl rfl
    · split
      · have h := validateCompare_clientOffset_cases hmacF shaF
          { o with totalVerificationFailures := 0 } userCode now
        simpa using h
      · exact validateCompare_clientOffset_cases hmacF shaF o userCode now

/-- C8: `Validate` of the empty string returns the `InvalidInput` error
and returns the credential with every field unchanged, whatever its
state. -/
theorem validate_empty_c8 (hmacF : HashT → List Nat → List Nat → List Nat)
    (shaF : String → String) (o : Totp) (now : Int) :
    validate hmacF shaF o "" now = (o, VResult.invalidInput) :=
  validate_empty_eq hmacF shaF o now

/-- C10: the empty-input check precedes the lockout check — even for a
credential with at least `MAX_FAILURES` failures still inside the
backoff window, `Validate("")` returns `InvalidInput`, not `Locked`. -/
theorem validate_empty_precedence_c10
    (hmacF : HashT → List Nat → List Nat → List Nat)
    (shaF : String → String) (o : Totp) (now : Int)
    (hfail : MAX_FAILURES ≤ o.totalVerificationFailures)
    (hwin : now ≤ o.lastVerificationTime + BACKOFF_MINUTES * 60) :
    validate hmacF shaF o "" now = (o, VResult.invalidInput) ∧
      (validate hmacF shaF o "" now).2 ≠ VResult.locked := by
  refine ⟨validate_empty_eq hmacF shaF o now, ?_⟩
  rw [validate_empty_eq hmacF shaF o now]
  simp

/-- Credential with the failure counter at the lockout threshold, used
as a concrete instance by several witnesses. -/
def sampleLocked : Totp :=
  { key := [1], counter := List.replicate 8 0, digits := 6, issuer := [],
    account := [], stepSize := 30, clientOffset := 0,
    totalVerificationFailures := 3, lastVerificationTime := 0,
    hashFunction := .sha1 }

/-- Degenerate HMAC model returning an all-zero digest of the variant's
size; used only to instantiate witnesses. -/
def hmacZeros : HashT → List Nat → List Nat → List Nat :=
  fun v _ _ => List.replicate (digestSize v) 0

/-- Witness for C10 at a locked credential inside the backoff window. -/
theorem validate_empty_precedence_c10_witness :
    validate hmacZeros id sampleLocked "" 100 = (sampleLocked, VResult.invalidInput) ∧
      (validate hmacZeros id sampleLocked "" 100).2 ≠ VResult.locked :=
  validate_empty_precedence_c10 hmacZeros id sampleLocked 100 (by decide) (by decide)

/-- C4 (amended): for a credential with at least `MAX_FAILURES`
failures, a non-empty code is rejected as `Locked` with no state change
whenever `now ≤ lastVerificationTime + 5 min`, and when strictly more
than 5 minutes have passed the failure counter is reset to 0 and
validation proceeds normally (the call behaves exactly like a call on
the credential with the counter already reset, and is never `Locked`). -/
theorem validate_lockout_c4 (hmacF : HashT → List Nat → List Nat → List Nat)
    (shaF : String → String) (o : Totp) (userCode : String) (now : Int)
    (hne : userCode ≠ "")
    (hfail : MAX_FAILURES ≤ o.totalVerificationFailures) :
    (now ≤ o.lastVerificationTime + BACKOFF_MINUTES * 60 →
      validate hmacF shaF o userCode now = (o, VResult.locked)) ∧
    (o.lastVerificationTime + BACKOFF_MINUTES * 60 < now →
      validate hmacF shaF o userCode now =
        validate hmacF shaF { o with totalVerificationFailures := 0 } userCode now ∧
      (validate hmacF shaF o userCode now).2 ≠ VResult.locked) := by
  constructor
  · intro hwin
    have hb : validBackoffTime o.lastVerificationTime now = false := by
      simp only [validBackoffTime, decide_eq_false_iff_not, not_lt]
      exact hwin
    simp [validate, hne, hb, hfail]
  · intro hwin
    have hb : validBackoffTime o.lastVerificationTime now = true := by
      simpa only [validBackoffTime, decide_eq_true_eq] using hwin
    have h1 : validate hmacF shaF o userCode now =
        validateCompare hmacF shaF { o with totalVerificationFailures := 0 }
          userCode now := by
      simp [validate, hne, hb, hfail]
    have h2 : validate hmacF shaF { o with totalVerificationFailures := 0 }
        userCode now =
        validateCompare hmacF shaF { o with totalVerificationFailures := 0 }
          userCode now := by
      simp [validate, hne, MAX_FAILURES]
    refine ⟨h1.trans h2.symm, ?_⟩
    rw [h1]
    exact validateCompare_snd_ne_locked hmacF shaF _ userCode now

/-- Witness for C4 at a locked credential, exercising both the
inside-window and past-window implications. -/
theorem validate_lockout_c4_witness :
    ((100 : Int) ≤ sampleLocked.lastVerificationTime + BACKOFF_MINUTES * 60 →
      validate hmacZeros id sampleLocked "1" 100 = (sampleLocked, VResult.locked)) ∧
    (sampleLocked.lastVerificationTime + BACKOFF_MINUTES * 60 < (100 : Int) →
      validate hmacZeros id sampleLocked "1" 100 =
        validate hmacZeros id
          { sampleLocked with totalVerificationFailures := 0 } "1" 100 ∧
      (validate hmacZeros id sampleLocked "1" 100).2 ≠ VResult.locked) :=
  validate_lockout_c4 hmacZeros id sampleLocked "1" 100 (by decide) (by decide)

/-- Counterexample for C4 as stated: at exactly 5 minutes after the
last failure (`now - lastVerificationTime = 300 s`, i.e. `≥ 5 min`),
the source still returns `Locked` and resets nothing, because
`validBackoffTime` uses a strict `After` comparison. -/
theorem validate_lockout_boundary_counterexample :
    (300 : Int) - sampleLocked.lastVerificationTime = BACKOFF_MINUTES * 60 ∧
      validate hmacZeros id sampleLocked "1" 300 = (sampleLocked, VResult.locked) := by
  constructor
  · decide
  · decide

/-- C6: in the Open state (failures below `MAX_FAILURES`), a candidate
equal to the current-step token succeeds leaving `clientOffset`
unchanged; one matching the previous-step token (and not the current
one, per the source's comparison order) succeeds setting
`clientOffset = -1`; one matching the next-step token sets
`clientOffset = 1`; none of these increments the failure counter; and
`clientOffset` is changed by no other path of `Validate` nor by any
token computation (`OTP`/`calculateTOTP`). -/
theorem validate_resync_c6 (hmacF : HashT → List Nat → List Nat → List Nat)
    (shaF : String → String) (hinj : Function.Injective shaF)
    (o : Totp) (userCode : String) (now : Int)
    (hne : userCode ≠ "")
    (hopen : o.totalVerificationFailures < MAX_FAILURES) :
    (userCode = tokenAt hmacF o 0 now →
      (validate hmacF shaF o userCode now).2 = VResult.ok ∧
      (validate hmacF shaF o userCode now).1.clientOffset = o.clientOffset ∧
      (validate hmacF shaF o userCode now).1.totalVerificationFailures =
        o.totalVerificationFailures) ∧
    (userCode ≠ tokenAt hmacF o 0 now → userCode = tokenAt hmacF o (-1) now →
      (validate hmacF shaF o userCode now).2 = VResult.ok ∧
      (validate hmacF shaF o userCode now).1.clientOffset = -1 ∧
      (validate hmacF shaF o userCode now).1.totalVerificationFailures =
        o.totalVerificationFailures) ∧
    (userCode ≠ tokenAt hmacF o 0 now → userCode ≠ tokenAt hmacF o (-1) now →
      userCode = tokenAt hmacF o 1 now →
      (validate hmacF shaF o userCode now).2 = VResult.ok ∧
      (validate hmacF shaF o userCode now).1.clientOffset = 1 ∧
      (validate hmacF shaF o userCode now).1.totalVerificationFailures =
        o.totalVerificationFailures) ∧
    (∀ (o2 : Totp) (code2 : String) (now2 : Int),
      (validate hmacF shaF o2 code2 now2).1.clientOffset ≠ o2.clientOffset →
      (validate hmacF shaF o2 code2 now2).2 = VResult.ok ∧
        ((validate hmacF shaF o2 code2 now2).1.clientOffset = -1 ∨
          (validate hmacF shaF o2 code2 now2).1.clientOffset = 1)) ∧
    (∀ (o3 : Totp) (index3 now3 : Int),
      (calculateTOTP hmacF o3 index3 now3).1.clientOffset = o3.clientOffset) := by
  have hA : ¬ MAX_FAILURES ≤ o.totalVerificationFailures := not_le.mpr hopen
  have hval : validate hmacF shaF o userCode now =
      validateCompare hmacF shaF o userCode now := by
    simp [validate, hne, hA]
  refine ⟨?_, ?_, ?_, ?_, ?_⟩
  · intro hmatch
    have hc : shaF (tokenAt hmacF o 0 now) = shaF userCode := by rw [hmatch]
    rw [hval, validateCompare_eq, if_pos hc]
    exact ⟨rfl, calculateTOTP_fst_clientOffset hmacF o 1 now,
      calculateTOTP_fst_failures hmacF o 1 now⟩
  · intro hmiss0 hmatch
    have hc0 : ¬ shaF (tokenAt hmacF o 0 now) = shaF userCode :=
      fun h => hmiss0 (hinj h).symm
    have hc : shaF (tokenAt hmacF o (-1) now) = shaF userCode := by rw [hmatch]
    rw [hval, validateCompare_eq, if_neg hc0, if_pos hc]
    exact ⟨rfl, rfl, calculateTOTP_fst_failures hmacF o 1 now⟩
  · intro hmiss0 hmiss1 hmatch
    have hc0 : ¬ shaF (tokenAt hmacF o 0 now) = shaF userCode :=
      fun h => hmiss0 (hinj h).symm
    have hc1 : ¬ shaF (tokenAt hmacF o (-1) now) = shaF userCode :=
      fun h => hmiss1 (hinj h).symm
    have hc : shaF (tokenAt hmacF o 1 now) = shaF userCode := by rw [hmatch]
    rw [hval, validateCompare_eq, if_neg hc0, if_neg hc1, if_pos hc]
    exact ⟨rfl, rfl, calculateTOTP_fst_failures hmacF o 1 now⟩
  · intro o2 code2 now2 hch
    rcases validate_clientOffset_cases hmacF shaF o2 code2 now2 with h | h
    · exact absurd h hch
    · exact h
  · intro o3 index3 now3
    exact calculateTOTP_fst_clientOffset hmacF o3 index3 now3

/-- C7: in the Open state, a non-empty candidate matching none of the
three computed tokens increments `totalVerificationFailures` by exactly
one, stamps `lastVerificationTime` with the current time, and returns
the `Mismatch` error. -/
theorem validate_mismatch_c7 (hmacF : HashT → List Nat → List Nat → List Nat)
    (shaF : String → String) (hinj : Function.Injective shaF)
    (o : Totp) (userCode : String) (now : Int)
    (hne : userCode ≠ "")
    (hopen : o.totalVerificationFailures < MAX_FAILURES)
    (hmiss0 : userCode ≠ tokenAt hmacF o 0 now)
    (hmiss1 : userCode ≠ tokenAt hmacF o (-1) now)
    (hmiss2 : userCode ≠ tokenAt hmacF o 1 now) :
    (validate hmacF shaF o userCode now).2 = VResult.mismatch ∧
    (validate hmacF shaF o userCode now).1.totalVerificationFailures =
      o.totalVerificationFailures + 1 ∧
    (validate hmacF shaF o userCode now).1.lastVerificationTime = now := by
  have hA : ¬ MAX_FAILURES ≤ o.totalVerificationFailures := not_le.mpr hopen
  have hval : validate hmacF shaF o userCode now =
      validateCompare hmacF shaF o userCode now := by
    simp [validate, hne, hA]
  have hc0 : ¬ shaF (tokenAt hmacF o 0 now) = shaF userCode :=
    fun h => hmiss0 (hinj h).symm
  have hc1 : ¬ shaF (tokenAt hmacF o (-1) now) = shaF userCode :=
    fun h => hmiss1 (hinj h).symm
  have hc2 : ¬ shaF (tokenAt hmacF o 1 now) = shaF userCode :=
    fun h => hmiss2 (hinj h).symm
  rw [hval, validateCompare_eq, if_neg hc0, if_neg hc1, if_neg hc2]
  exact ⟨rfl, rfl, rfl⟩

/-- Open-state credential used to instantiate the resync witnesses. -/
def sampleOpen : Totp :=
  { key := [1], counter := List.replicate 8 0, digits := 6, issuer := [],
    account := [], stepSize := 30, clientOffset := 0,
    totalVerificationFailures := 0, lastVerificationTime := 0,
    hashFunction := .sha1 }

/-- Counter-sensitive HMAC model (the reversed message padded to a
20-byte digest); it gives the three validation windows three distinct
tokens, so the witnesses can exercise each branch. -/
def hmacBytes : HashT → List Nat → List Nat → List Nat :=
  fun _ _ msg => msg.reverse ++ List.replicate 12 0

/-- Witness for C6 at a concrete open credential whose three window
tokens are pairwise distinct. -/
theorem validate_resync_c6_witness :
    ("000000" = tokenAt hmacBytes sampleOpen 0 30 →
      (validate hmacBytes id sampleOpen "000000" 30).2 = VResult.ok ∧
      (validate hmacBytes id sampleOpen "000000" 30).1.clientOffset =
        sampleOpen.clientOffset ∧
      (validate hmacBytes id sampleOpen "000000" 30).1.totalVerificationFailures =
        sampleOpen.totalVerificationFailures) ∧
    ("000000" ≠ tokenAt hmacBytes sampleOpen 0 30 →
      "000000" = tokenAt hmacBytes sampleOpen (-1) 30 →
      (validate hmacBytes id sampleOpen "000000" 30).2 = VResult.ok ∧
      (validate hmacBytes id sampleOpen "000000" 30).1.clientOffset = -1 ∧
      (validate hmacBytes id sampleOpen "000000" 30).1.totalVerificationFailures =
        sampleOpen.totalVerificationFailures) ∧
    ("000000" ≠ tokenAt hmacBytes sampleOpen 0 30 →
      "000000" ≠ tokenAt hmacBytes sampleOpen (-1) 30 →
      "000000" = tokenAt hmacBytes sampleOpen 1 30 →
      (validate hmacBytes id sampleOpen "000000" 30).2 = VResult.ok ∧
      (validate hmacBytes id sampleOpen "000000" 30).1.clientOffset = 1 ∧
      (validate hmacBytes id sampleOpen "000000" 30).1.totalVerificationFailures =
        sampleOpen.totalVerificationFailures) ∧
    (∀ (o2 : Totp) (code2 : String) (now2 : Int),
      (validate hmacBytes id o2 code2 now2).1.clientOffset ≠ o2.clientOffset →
      (validate hmacBytes id o2 code2 now2).2 = VResult.ok ∧
        ((validate hmacBytes id o2 code2 now2).1.clientOffset = -1 ∨
          (validate hmacBytes id o2 code2 now2).1.clientOffset = 1)) ∧
    (∀ (o3 : Totp) (index3 now3 : Int),
      (calculateTOTP hmacBytes o3 index3 now3).1.clientOffset = o3.clientOffset) :=
  validate_resync_c6 hmacBytes id (fun _ _ h => h) sampleOpen "000000" 30
    (by decide) (by decide)

/-- Witness for C7: a candidate matching none of the three window
tokens of the concrete open credential. -/
theorem validate_mismatch_c7_witness :
    (validate hmacBytes id sampleOpen "999999" 30).2 = VResult.mismatch ∧
    (validate hmacBytes id sampleOpen "999999" 30).1.totalVerificationFailures =
      sampleOpen.totalVerificationFailures + 1 ∧
    (validate hmacBytes id sampleOpen "999999" 30).1.lastVerificationTime = 30 :=
  validate_mismatch_c7 hmacBytes id (fun _ _ h => h) sampleOpen "999999" 30
    (by decide) (by decide) (by decide) (by decide) (by decide)

/-- `bytes.Buffer.Write`/`WriteString`: appends to the buffer and, per
the Go documentation, always returns a nil error (the source still
checks it, so the model keeps the `Except` shape). -/
def bufferWrite (buf chunk : List Nat) : Except String (List Nat) :=
  .ok (buf ++ chunk)

/-- The wire tag the `ToBytes` switch writes for each hash variant. -/
def hashTag : HashT → Int
  | .sha1 => 0
  | .sha256 => 1
  | .sha512 => 2

/-- `ToBytes` from totp.go: the fixed layout
`|total|keySize|key|counter|digits|issuerSize|issuer|accountSize|account|steps|offset|failures|time|hashType|`
with 4-byte big-endian sizes and ints, 8-byte counter and time. -/
def ToBytes (o : Totp) : Except String (List Nat) := do
  let keySize := o.key.length
  let issuerSize := o.issuer.length
  let accountSize := o.account.length
  let totalSize := 4 + 4 + keySize + 8 + 4 + 4 + issuerSize + 4 + accountSize +
    4 + 4 + 4 + 8 + 4
  let b1 ← bufferWrite [] (bigEndianInt totalSize)
  let b2 ← bufferWrite b1 (bigEndianInt keySize)
  let b3 ← bufferWrite b2 o.key
  let b4 ← bufferWrite b3 (bigEndianUint64 (getIntCounter o))
  let b5 ← bufferWrite b4 (bigEndianInt o.digits)
  let b6 ← bufferWrite b5 (bigEndianInt issuerSize)
  let b7 ← bufferWrite b6 o.issuer
  let b8 ← bufferWrite b7 (bigEndianInt accountSize)
  let b9 ← bufferWrite b8 o.account
  let b10 ← bufferWrite b9 (bigEndianInt o.stepSize)
  let b11 ← bufferWrite b10 (bigEndianInt o.clientOffset)
  let b12 ← bufferWrite b11 (bigEndianInt o.totalVerificationFailures)
  let b13 ← bufferWrite b12 (bigEndianUint64 o.lastVerificationTime)
  bufferWrite b13 (bigEndianInt (hashTag o.hashFunction))

/-- Suffix of the encoding from the hash-type field on. -/
def tailHash (o : Totp) : List Nat := bigEndianInt (hashTag o.hashFunction)

/-- Suffix of the encoding from the verification-time field on. -/
def tailTime (o : Totp) : List Nat :=
  bigEndianUint64 o.lastVerificationTime ++ tailHash o

/-- Suffix of the encoding from the failure-counter field on. -/
def tailFailures (o : Totp) : List Nat :=
  bigEndianInt o.totalVerificationFailures ++ tailTime o

/-- Suffix of the encoding from the client-offset field on. -/
def tailOffset (o : Totp) : List Nat :=
  bigEndianInt o.clientOffset ++ tailFailures o

/-- Suffix of the encoding from the step-size field on. -/
def tailSteps (o : Totp) : List Nat := bigEndianInt o.stepSize ++ tailOffset o

/-- Suffix of the encoding from the account bytes on. -/
def tailAccount (o : Totp) : List Nat := o.account ++ tailSteps o

/-- Suffix of the encoding from the account-size field on. -/
def tailAccountSize (o : Totp) : List Nat :=
  bigEndianInt o.account.length ++ tailAccount o

/-- Suffix of the encoding from the issuer bytes on. -/
def tailIssuer (o : Totp) : List Nat := o.issuer ++ tailAccountSize o

/-- Suffix of the encoding from the issuer-size field on. -/
def tailIssuerSize (o : Totp) : List Nat :=
  bigEndianInt o.issuer.length ++ tailIssuer o

/-- Suffix of the encoding from the digits field on. -/
def tailDigits (o : Totp) : List Nat := bigEndianInt o.digits ++ tailIssuerSize o

/-- Suffix of the encoding from the counter field on. -/
def tailCounter (o : Totp) : List Nat :=
  bigEndianUint64 (getIntCounter o) ++ tailDigits o

/-- Suffix of the encoding from the key bytes on. -/
def tailKey (o : Totp) : List Nat := o.key ++ tailCounter o

/-- Everything `ToBytes` writes after the 4 `totalSize` bytes. -/
def encodeTail (o : Totp) : List Nat := bigEndianInt o.key.length ++ tailKey o

/-- The byte string `ToBytes` produces, as a flat concatenation. -/
def encodeTotp (o : Totp) : List Nat :=
  bigEndianInt (4 + 4 + o.key.length + 8 + 4 + 4 + o.issuer.length + 4 +
      o.account.length + 4 + 4 + 4 + 8 + 4 : Nat) ++ encodeTail o

lemma bigEndianInt_length (n : Int) : (bigEndianInt n).length = 4 := rfl

lemma bigEndianUint64_length (n : Int) : (bigEndianUint64 n).length = 8 := rfl

lemma except_ok_bind {α β : Type} (a : α) (f : α → Except String β) :
    (Except.ok a >>= f) = f a := rfl

lemma toBytes_eq_encode (o : Totp) : ToBytes o = .ok (encodeTotp o) := by
  simp [ToBytes, bufferWrite, encodeTotp, except_ok_bind, encodeTail, tailKey,
    tailCounter, tailDigits, tailIssuerSize, tailIssuer, tailAccountSize,
    tailAccount, tailSteps, tailOffset, tailFailures, tailTime, tailHash]

lemma encodeTail_length (o : Totp) :
    (encodeTail o).length =
      48 + o.key.length + o.issuer.length + o.account.length := by
  simp [encodeTail, tailKey, tailCounter, tailDigits, tailIssuerSize,
    tailIssuer, tailAccountSize, tailAccount, tailSteps, tailOffset,
    tailFailures, tailTime, tailHash, bigEndianInt_length,
    bigEndianUint64_length]
  omega

lemma encodeTotp_length (o : Totp) :
    (encodeTotp o).length =
      52 + o.key.length + o.issuer.length + o.account.length := by
  simp [encodeTotp, bigEndianInt_length, encodeTail_length]
  omega

lemma intFromBigEndian_bigEndianInt (n : Int)
    (h1 : -2147483648 ≤ n) (h2 : n < 2147483648) :
    intFromBigEndian (bigEndianInt n) = n := by
  unfold bigEndianInt intFromBigEndian
  rw [natFromBigEndian4_bigEndian4 _ (by omega)]
  split <;> omega

/-- C9 (amended): `ToBytes` never fails, and the byte length of its
output equals the `totalSize` value recorded in its first 4 bytes —
which is `52 + keySize + issuerSize + accountSize` (the fixed fields
total 52 bytes, not the 44 the claim states). -/
theorem toBytes_total_c9 (o : Totp)
    (hsize : 52 + o.key.length + o.issuer.length + o.account.length <
      2147483648) :
    ToBytes o = .ok (encodeTotp o) ∧
    (encodeTotp o).length =
      52 + o.key.length + o.issuer.length + o.account.length ∧
    intFromBigEndian ((encodeTotp o).take 4) =
      ((52 + o.key.length + o.issuer.length + o.account.length : Nat) : Int) := by
  refine ⟨toBytes_eq_encode o, encodeTotp_length o, ?_⟩
  have htake : (encodeTotp o).take 4 =
      bigEndianInt (4 + 4 + o.key.length + 8 + 4 + 4 + o.issuer.length + 4 +
        o.account.length + 4 + 4 + 4 + 8 + 4 : Nat) := by
    unfold encodeTotp
    exact List.take_left' (bigEndianInt_length _)
  rw [htake,
    show ((4 + 4 + o.key.length + 8 + 4 + 4 + o.issuer.length + 4 +
        o.account.length + 4 + 4 + 4 + 8 + 4 : Nat) : Int) =
      ((52 + o.key.length + o.issuer.length + o.account.length : Nat) : Int) by
        push_cast; ring]
  exact intFromBigEndian_bigEndianInt _ (by omega) (by omega)

/-- Witness for C9 at a concrete populated credential. -/
theorem toBytes_total_c9_witness :
    ToBytes sampleLocked = .ok (encodeTotp sampleLocked) ∧
    (encodeTotp sampleLocked).length =
      52 + sampleLocked.key.length + sampleLocked.issuer.length +
        sampleLocked.account.length ∧
    intFromBigEndian ((encodeTotp sampleLocked).take 4) =
      ((52 + sampleLocked.key.length + sampleLocked.issuer.length +
        sampleLocked.account.length : Nat) : Int) :=
  toBytes_total_c9 sampleLocked (by decide)

/-- Counterexample for C9 as stated: the fixed fields of the layout
total 52 bytes (4+4+8+4+4+4+4+4+4+8+4), so for the concrete credential
with a 1-byte key and empty issuer/account the encoding is 53 bytes
long, not `44 + 1 + 0 + 0 = 45`. -/
theorem toBytes_total_counterexample :
    ToBytes sampleLocked = .ok (encodeTotp sampleLocked) ∧
    (encodeTotp sampleLocked).length = 53 ∧
    44 + sampleLocked.key.length + sampleLocked.issuer.length +
        sampleLocked.account.length ≠ 53 := by
  refine ⟨toBytes_eq_encode sampleLocked, ?_, ?_⟩
  · decide
  · decide

/-- A Go slice expression `buffer[s:e]`: defined when
`0 ≤ s ≤ e ≤ len(buffer)`, and a runtime panic
("slice bounds out of range") otherwise. -/
def sliceChecked (buffer : List Nat) (s e : Int) : Except String (List Nat) :=
  if 0 ≤ s ∧ s ≤ e ∧ e ≤ (buffer.length : Int) then
    .ok ((buffer.drop s.toNat).take (e - s).toNat)
  else .error "slice bounds out of range"

/-- `TOTPFromBytes` from totp.go.  `Except.error` marks a Go runtime
panic (`make` with negative length, slice bounds); a normal return
carries the credential together with the error value the function
returns (`some "EOF"` when the second `Read` hit end-of-data, `none`
otherwise — the source deliberately ignores `io.EOF` mid-way and
returns it at the end).  The byte-offset arithmetic follows the
source's running `startOffset`/`endOffset` cursor, written as the
accumulated sums. -/
def TOTPFromBytes (data : List Nat) : Except String (Totp × Option String) :=
  let lenght := data.take 4 ++ List.replicate (4 - data.length) 0
  let totalSize := intFromBigEndian lenght
  if totalSize - 4 < 0 then .error "makeslice: len out of range"
  else
    let avail := data.drop 4
    let buffer := avail.take (totalSize - 4).toNat ++
      List.replicate ((totalSize - 4).toNat - avail.length) 0
    let readErr : Option String := if data.length ≤ 4 then some "EOF" else none
    do
      let keyBytes ← sliceChecked buffer 0 4
      let keySize := intFromBigEndian keyBytes
      let key ← sliceChecked buffer 4 (4 + keySize)
      let counterB ← sliceChecked buffer (4 + keySize) (4 + keySize + 8)
      let digitsB ← sliceChecked buffer (4 + keySize + 8) (4 + keySize + 8 + 4)
      let issuerSizeB ← sliceChecked buffer (4 + keySize + 8 + 4)
        (4 + keySize + 8 + 4 + 4)
      let issuerSize := intFromBigEndian issuerSizeB
      let issuer ← sliceChecked buffer (4 + keySize + 8 + 4 + 4)
        (4 + keySize + 8 + 4 + 4 + issuerSize)
      let accountSizeB ← sliceChecked buffer (4 + keySize + 8 + 4 + 4 + issuerSize)
        (4 + keySize + 8 + 4 + 4 + issuerSize + 4)
      let accountSize := intFromBigEndian accountSizeB
      let account ← sliceChecked buffer (4 + keySize + 8 + 4 + 4 + issuerSize + 4)
        (4 + keySize + 8 + 4 + 4 + issuerSize + 4 + accountSize)
      let stepsB ← sliceChecked buffer
        (4 + keySize + 8 + 4 + 4 + issuerSize + 4 + accountSize)
        (4 + keySize + 8 + 4 + 4 + issuerSize + 4 + accountSize + 4)
      let offsetB ← sliceChecked buffer
        (4 + keySize + 8 + 4 + 4 + issuerSize + 4 + accountSize + 4)
        (4 + keySize + 8 + 4 + 4 + issuerSize + 4 + accountSize + 4 + 4)
      let failuresB ← sliceChecked buffer
        (4 + keySize + 8 + 4 + 4 + issuerSize + 4 + accountSize + 4 + 4)
        (4 + keySize + 8 + 4 + 4 + issuerSize + 4 + accountSize + 4 + 4 + 4)
      let timeB ← sliceChecked buffer
        (4 + keySize + 8 + 4 + 4 + issuerSize + 4 + accountSize + 4 + 4 + 4)
        (4 + keySize + 8 + 4 + 4 + issuerSize + 4 + accountSize + 4 + 4 + 4 + 8)
      let hashB ← sliceChecked buffer
        (4 + keySize + 8 + 4 + 4 + issuerSize + 4 + accountSize + 4 + 4 + 4 + 8)
        (4 + keySize + 8 + 4 + 4 + issuerSize + 4 + accountSize + 4 + 4 + 4 + 8 + 4)
      let hashType := intFromBigEndian hashB
      .ok ({ key := key, counter := counterB, digits := intFromBigEndian digitsB,
             issuer := issuer, account := account,
             stepSize := intFromBigEndian stepsB,
             clientOffset := intFromBigEndian offsetB,
             totalVerificationFailures := intFromBigEndian failuresB,
             lastVerificationTime := int64OfUInt64 (uint64FromBigEndian timeB),
             hashFunction :=
               if hashType = 1 then HashT.sha256
               else if hashType = 2 then HashT.sha512
               else HashT.sha1 }, readErr)

/-- C2 is a code bug: decoding crashes instead of returning a
`DecodeError`.  On empty input the declared total size reads as 0 and
`make([]byte, totalSize-4)` panics with a negative length; on a
truncated buffer whose declared key size exceeds the remaining bytes,
the key slice panics out of range. -/
theorem totpFromBytes_panics_c2 :
    TOTPFromBytes [] = .error "makeslice: len out of range" ∧
    TOTPFromBytes [0, 0, 0, 50, 0, 0, 0, 60] =
      .error "slice bounds out of range" := by
  constructor
  · rfl
  · rfl

lemma slice_drop (buf mid post : List Nat) (s e : Int)
    (h0 : 0 ≤ s)
    (hdrop : buf.drop s.toNat = mid ++ post)
    (he : e = s + (mid.length : Int))
    (hlen : e ≤ (buf.length : Int)) :
    sliceChecked buf s e = .ok mid := by
  unfold sliceChecked
  rw [if_pos ⟨h0, by omega, hlen⟩, hdrop,
    show (e - s).toNat = mid.length by omega, List.take_left]

lemma uint64FromBigEndian_lt (c : List Nat) (hb : ∀ b ∈ c, b < 256) :
    uint64FromBigEndian c < 18446744073709551616 := by
  have g0 := getD_lt_256 c hb 0
  have g1 := getD_lt_256 c hb 1
  have g2 := getD_lt_256 c hb 2
  have g3 := getD_lt_256 c hb 3
  have g4 := getD_lt_256 c hb 4
  have g5 := getD_lt_256 c hb 5
  have g6 := getD_lt_256 c hb 6
  have g7 := getD_lt_256 c hb 7
  unfold uint64FromBigEndian
  omega

lemma bigEndian8_uint64 (c : List Nat) (hlen : c.length = 8)
    (hb : ∀ b ∈ c, b < 256) :
    bigEndian8 (uint64FromBigEndian c) = c := by
  rcases c with _ | ⟨b0, c⟩
  · simp at hlen
  rcases c with _ | ⟨b1, c⟩
  · simp at hlen
  rcases c with _ | ⟨b2, c⟩
  · simp at hlen
  rcases c with _ | ⟨b3, c⟩
  · simp at hlen
  rcases c with _ | ⟨b4, c⟩
  · simp at hlen
  rcases c with _ | ⟨b5, c⟩
  · simp at hlen
  rcases c with _ | ⟨b6, c⟩
  · simp at hlen
  rcases c with _ | ⟨b7, c⟩
  · simp at hlen
  rcases c with _ | ⟨b8, c⟩
  · have h0 : b0 < 256 := hb b0 (by simp)
    have h1 : b1 < 256 := hb b1 (by simp)
    have h2 : b2 < 256 := hb b2 (by simp)
    have h3 : b3 < 256 := hb b3 (by simp)
    have h4 : b4 < 256 := hb b4 (by simp)
    have h5 : b5 < 256 := hb b5 (by simp)
    have h6 : b6 < 256 := hb b6 (by simp)
    have h7 : b7 < 256 := hb b7 (by simp)
    simp [uint64FromBigEndian, bigEndian8]
    omega
  · simp at hlen

lemma bigEndianUint64_getIntCounter (o : Totp) (hlen : o.counter.length = 8)
    (hb : ∀ b ∈ o.counter, b < 256) :
    bigEndianUint64 (getIntCounter o) = o.counter := by
  have hlt : getIntCounter o < 18446744073709551616 :=
    uint64FromBigEndian_lt o.counter hb
  unfold bigEndianUint64
  rw [show ((getIntCounter o : Int) % 18446744073709551616).toNat =
    getIntCounter o by omega]
  exact bigEndian8_uint64 o.counter hlen hb

lemma time_roundtrip (t : Int) (h1 : -9223372036854775808 ≤ t)
    (h2 : t < 9223372036854775808) :
    int64OfUInt64 (uint64FromBigEndian (bigEndianUint64 t)) = t := by
  unfold bigEndianUint64
  rw [uint64FromBigEndian_bigEndian8 _ (by omega)]
  unfold int64OfUInt64
  split <;> omega

lemma hash_roundtrip (v : HashT) :
    (if intFromBigEndian (bigEndianInt (hashTag v)) = 1 then HashT.sha256
     else if intFromBigEndian (bigEndianInt (hashTag v)) = 2 then HashT.sha512
     else HashT.sha1) = v := by
  cases v <;> rfl

/-- C3: decode after encode reproduces every field of a populated
credential exactly — key bytes, counter, digits, stepSize,
clientOffset, totalVerificationFailures, lastVerificationTime (to the
second), issuer, account, and hashVariant — and `ToBytes` is a pure
function of the credential, so two encodings of an unchanged credential
are byte-identical (both equal `encodeTotp o`). -/
theorem roundtrip_c3 (o : Totp)
    (hcnt : o.counter.length = 8)
    (hcntB : ∀ b ∈ o.counter, b < 256)
    (hd1 : -2147483648 ≤ o.digits) (hd2 : o.digits < 2147483648)
    (hst1 : -2147483648 ≤ o.stepSize) (hst2 : o.stepSize < 2147483648)
    (hoff1 : -2147483648 ≤ o.clientOffset) (hoff2 : o.clientOffset < 2147483648)
    (hfl1 : -2147483648 ≤ o.totalVerificationFailures)
    (hfl2 : o.totalVerificationFailures < 2147483648)
    (ht1 : -9223372036854775808 ≤ o.lastVerificationTime)
    (ht2 : o.lastVerificationTime < 9223372036854775808)
    (hsize : 52 + o.key.length + o.issuer.length + o.account.length <
      2147483648) :
    TOTPFromBytes (encodeTotp o) = .ok (o, none) ∧
    ToBytes o = .ok (encodeTotp o) := by
  refine ⟨?_, toBytes_eq_encode o⟩
  -- drop chain over the encoded tail, at the cumulative byte offsets
  have d2 : (encodeTail o).drop 4 = tailKey o := by
    unfold encodeTail; exact List.drop_left' (bigEndianInt_length _)
  have d3 : (encodeTail o).drop (4 + o.key.length) = tailCounter o := by
    rw [← List.drop_drop, d2, show tailKey o = o.key ++ tailCounter o from rfl,
      List.drop_left]
  have d4 : (encodeTail o).drop (4 + o.key.length + 8) = tailDigits o := by
    rw [← List.drop_drop, d3, show tailCounter o =
      bigEndianUint64 (getIntCounter o) ++ tailDigits o from rfl,
      List.drop_left' (bigEndianUint64_length _)]
  have d5 : (encodeTail o).drop (4 + o.key.length + 8 + 4) = tailIssuerSize o := by
    rw [← List.drop_drop, d4, show tailDigits o =
      bigEndianInt o.digits ++ tailIssuerSize o from rfl,
      List.drop_left' (bigEndianInt_length _)]
  have d6 : (encodeTail o).drop (4 + o.key.length + 8 + 4 + 4) = tailIssuer o := by
    rw [← List.drop_drop, d5, show tailIssuerSize o =
      bigEndianInt o.issuer.length ++ tailIssuer o from rfl,
      List.drop_left' (bigEndianInt_length _)]
  have d7 : (encodeTail o).drop (4 + o.key.length + 8 + 4 + 4 + o.issuer.length) =
      tailAccountSize o := by
    rw [← List.drop_drop, d6, show tailIssuer o =
      o.issuer ++ tailAccountSize o from rfl, List.drop_left]
  have d8 : (encodeTail o).drop
      (4 + o.key.length + 8 + 4 + 4 + o.issuer.length + 4) = tailAccount o := by
    rw [← List.drop_drop, d7, show tailAccountSize o =
      bigEndianInt o.account.length ++ tailAccount o from rfl,
      List.drop_left' (bigEndianInt_length _)]
  have d9 : (encodeTail o).drop
      (4 + o.key.length + 8 + 4 + 4 + o.issuer.length + 4 + o.account.length) =
      tailSteps o := by
    rw [← List.drop_drop, d8, show tailAccount o =
      o.account ++ tailSteps o from rfl, List.drop_left]
  have d10 : (encodeTail o).drop
      (4 + o.key.length + 8 + 4 + 4 + o.issuer.length + 4 + o.account.length + 4) =
      tailOffset o := by
    rw [← List.drop_drop, d9, show tailSteps o =
      bigEndianInt o.stepSize ++ tailOffset o from rfl,
      List.drop_left' (bigEndianInt_length _)]
  have d11 : (encodeTail o).drop
      (4 + o.key.length + 8 + 4 + 4 + o.issuer.length + 4 + o.account.length +
        4 + 4) = tailFailures o := by
    rw [← List.drop_drop, d10, show tailOffset o =
      bigEndianInt o.clientOffset ++ tailFailures o from rfl,
      List.drop_left' (bigEndianInt_length _)]
  have d12 : (encodeTail o).drop
      (4 + o.key.length + 8 + 4 + 4 + o.issuer.length + 4 + o.account.length +
        4 + 4 + 4) = tailTime o := by
    rw [← List.drop_drop, d11, show tailFailures o =
      bigEndianInt o.totalVerificationFailures ++ tailTime o from rfl,
      List.drop_left' (bigEndianInt_length _)]
  have d13 : (encodeTail o).drop
      (4 + o.key.length + 8 + 4 + 4 + o.issuer.length + 4 + o.account.length +
        4 + 4 + 4 + 8) = tailHash o := by
    rw [← List.drop_drop, d12, show tailTime o =
      bigEndianUint64 o.lastVerificationTime ++ tailHash o from rfl,
      List.drop_left' (bigEndianUint64_length _)]
  -- the thirteen field slices, in source order
  have s1 : sliceChecked (encodeTail o) 0 4 =
      .ok (bigEndianInt (o.key.length : Int)) :=
    slice_drop (encodeTail o) _ (tailKey o) 0 4 (by omega)
      (by rw [show ((0 : Int)).toNat = 0 from rfl, List.drop_zero]; rfl)
      (by rw [bigEndianInt_length]; omega)
      (by rw [encodeTail_length]; push_cast; omega)
  have s2 : sliceChecked (encodeTail o) 4 (4 + (o.key.length : Int)) =
      .ok o.key :=
    slice_drop (encodeTail o) _ (tailCounter o) 4 (4 + (o.key.length : Int))
      (by omega)
      (by rw [show ((4 : Int)).toNat = 4 from rfl, d2]; rfl)
      (by omega)
      (by rw [encodeTail_length]; push_cast; omega)
  have s3 : sliceChecked (encodeTail o) (4 + (o.key.length : Int))
      (4 + (o.key.length : Int) + 8) =
      .ok (bigEndianUint64 (getIntCounter o)) :=
    slice_drop (encodeTail o) _ (tailDigits o) (4 + (o.key.length : Int))
      (4 + (o.key.length : Int) + 8) (by omega)
      (by rw [show (4 + (o.key.length : Int)).toNat = 4 + o.key.length by omega,
        d3]; rfl)
      (by rw [bigEndianUint64_length]; omega)
      (by rw [encodeTail_length]; push_cast; omega)
  have s4 : sliceChecked (encodeTail o) (4 + (o.key.length : Int) + 8)
      (4 + (o.key.length : Int) + 8 + 4) = .ok (bigEndianInt o.digits) :=
    slice_drop (encodeTail o) _ (tailIssuerSize o)
      (4 + (o.key.length : Int) + 8) (4 + (o.key.length : Int) + 8 + 4)
      (by omega)
      (by rw [show (4 + (o.key.length : Int) + 8).toNat =
        4 + o.key.length + 8 by omega, d4]; rfl)
      (by rw [bigEndianInt_length]; omega)
      (by rw [encodeTail_length]; push_cast; omega)
  have s5 : sliceChecked (encodeTail o) (4 + (o.key.length : Int) + 8 + 4)
      (4 + (o.key.length : Int) + 8 + 4 + 4) =
      .ok (bigEndianInt o.issuer.length) :=
    slice_drop (encodeTail o) _ (tailIssuer o)
      (4 + (o.key.length : Int) + 8 + 4)
      (4 + (o.key.length : Int) + 8 + 4 + 4) (by omega)
      (by rw [show (4 + (o.key.length : Int) + 8 + 4).toNat =
        4 + o.key.length + 8 + 4 by omega, d5]; rfl)
      (by rw [bigEndianInt_length]; omega)
      (by rw [encodeTail_length]; push_cast; omega)
  have s6 : sliceChecked (encodeTail o) (4 + (o.key.length : Int) + 8 + 4 + 4)
      (4 + (o.key.length : Int) + 8 + 4 + 4 + (o.issuer.length : Int)) =
      .ok o.issuer :=
    slice_drop (encodeTail o) _ (tailAccountSize o)
      (4 + (o.key.length : Int) + 8 + 4 + 4)
      (4 + (o.key.length : Int) + 8 + 4 + 4 + (o.issuer.length : Int))
      (by omega)
      (by rw [show (4 + (o.key.length : Int) + 8 + 4 + 4).toNat =
        4 + o.key.length + 8 + 4 + 4 by omega, d6]; rfl)
      (by omega)
      (by rw [encodeTail_length]; push_cast; omega)
  have s7 : sliceChecked (encodeTail o)
      (4 + (o.key.length : Int) + 8 + 4 + 4 + (o.issuer.length : Int))
      (4 + (o.key.length : Int) + 8 + 4 + 4 + (o.issuer.length : Int) + 4) =
      .ok (bigEndianInt o.account.length) :=
    slice_drop (encodeTail o) _ (tailAccount o)
      (4 + (o.key.length : Int) + 8 + 4 + 4 + (o.issuer.length : Int))
      (4 + (o.key.length : Int) + 8 + 4 + 4 + (o.issuer.length : Int) + 4)
      (by omega)
      (by rw [show (4 + (o.key.length : Int) + 8 + 4 + 4 +
        (o.issuer.length : Int)).toNat =
        4 + o.key.length + 8 + 4 + 4 + o.issuer.length by omega, d7]; rfl)
      (by rw [bigEndianInt_length]; omega)
      (by rw [encodeTail_length]; push_cast; omega)
  have s8 : sliceChecked (encodeTail o)
      (4 + (o.key.length : Int) + 8 + 4 + 4 + (o.issuer.length : Int) + 4)
      (4 + (o.key.length : Int) + 8 + 4 + 4 + (o.issuer.length : Int) + 4 +
        (o.account.length : Int)) = .ok o.account :=
    slice_drop (encodeTail o) _ (tailSteps o)
      (4 + (o.key.length : Int) + 8 + 4 + 4 + (o.issuer.length : Int) + 4)
      (4 + (o.key.length : Int) + 8 + 4 + 4 + (o.issuer.length : Int) + 4 +
        (o.account.length : Int))
      (by omega)
      (by rw [show (4 + (o.key.length : Int) + 8 + 4 + 4 +
        (o.issuer.length : Int) + 4).toNat =
        4 + o.key.length + 8 + 4 + 4 + o.issuer.length + 4 by omega, d8]; rfl)
      (by omega)
      (by rw [encodeTail_length]; push_cast; omega)
  have s9 : sliceChecked (encodeTail o)
      (4 + (o.key.length : Int) + 8 + 4 + 4 + (o.issuer.length : Int) + 4 +
        (o.account.length : Int))
      (4 + (o.key.length : Int) + 8 + 4 + 4 + (o.issuer.length : Int) + 4 +
        (o.account.length : Int) + 4) = .ok (bigEndianInt o.stepSize) :=
    slice_drop (encodeTail o) _ (tailOffset o)
      (4 + (o.key.length : Int) + 8 + 4 + 4 + (o.issuer.length : Int) + 4 +
        (o.account.length : Int))
      (4 + (o.key.length : Int) + 8 + 4 + 4 + (o.issuer.length : Int) + 4 +
        (o.account.length : Int) + 4)
      (by omega)
      (by rw [show (4 + (o.key.length : Int) + 8 + 4 + 4 +
        (o.issuer.length : Int) + 4 + (o.account.length : Int)).toNat =
        4 + o.key.length + 8 + 4 + 4 + o.issuer.length + 4 + o.account.length
        by omega, d9]; rfl)
      (by rw [bigEndianInt_length]; omega)
      (by rw [encodeTail_length]; push_cast; omega)
  have s10 : sliceChecked (encodeTail o)
      (4 + (o.key.length : Int) + 8 + 4 + 4 + (o.issuer.length : Int) + 4 +
        (o.account.length : Int) + 4)
      (4 + (o.key.length : Int) + 8 + 4 + 4 + (o.issuer.length : Int) + 4 +
        (o.account.length : Int) + 4 + 4) = .ok (bigEndianInt o.clientOffset) :=
    slice_drop (encodeTail o) _ (tailFailures o)
      (4 + (o.key.length : Int) + 8 + 4 + 4 + (o.issuer.length : Int) + 4 +
        (o.account.length : Int) + 4)
      (4 + (o.key.length : Int) + 8 + 4 + 4 + (o.issuer.length : Int) + 4 +
        (o.account.length : Int) + 4 + 4)
      (by omega)
      (by rw [show (4 + (o.key.length : Int) + 8 + 4 + 4 +
        (o.issuer.length : Int) + 4 + (o.account.length : Int) + 4).toNat =
        4 + o.key.length + 8 + 4 + 4 + o.issuer.length + 4 + o.account.length +
        4 by omega, d10]; rfl)
      (by rw [bigEndianInt_length]; omega)
      (by rw [encodeTail_length]; push_cast; omega)
  have s11 : sliceChecked (encodeTail o)
      (4 + (o.key.length : Int) + 8 + 4 + 4 + (o.issuer.length : Int) + 4 +
        (o.account.length : Int) + 4 + 4)
      (4 + (o.key.length : Int) + 8 + 4 + 4 + (o.issuer.length : Int) + 4 +
        (o.account.length : Int) + 4 + 4 + 4) =
      .ok (bigEndianInt o.totalVerificationFailures) :=
    slice_drop (encodeTail o) _ (tailTime o)
      (4 + (o.key.length : Int) + 8 + 4 + 4 + (o.issuer.length : Int) + 4 +
        (o.account.length : Int) + 4 + 4)
      (4 + (o.key.length : Int) + 8 + 4 + 4 + (o.issuer.length : Int) + 4 +
        (o.account.length : Int) + 4 + 4 + 4)
      (by omega)
      (by rw [show (4 + (o.key.length : Int) + 8 + 4 + 4 +
        (o.issuer.length : Int) + 4 + (o.account.length : Int) + 4 + 4).toNat =
        4 + o.key.length + 8 + 4 + 4 + o.issuer.length + 4 + o.account.length +
        4 + 4 by omega, d11]; rfl)
      (by rw [bigEndianInt_length]; omega)
      (by rw [encodeTail_length]; push_cast; omega)
  have s12 : sliceChecked (encodeTail o)
      (4 + (o.key.length : Int) + 8 + 4 + 4 + (o.issuer.length : Int) + 4 +
        (o.account.length : Int) + 4 + 4 + 4)
      (4 + (o.key.length : Int) + 8 + 4 + 4 + (o.issuer.length : Int) + 4 +
        (o.account.length : Int) + 4 + 4 + 4 + 8) =
      .ok (bigEndianUint64 o.lastVerificationTime) :=
    slice_drop (encodeTail o) _ (tailHash o)
      (4 + (o.key.length : Int) + 8 + 4 + 4 + (o.issuer.length : Int) + 4 +
        (o.account.length : Int) + 4 + 4 + 4)
      (4 + (o.key.length : Int) + 8 + 4 + 4 + (o.issuer.length : Int) + 4 +
        (o.account.length : Int) + 4 + 4 + 4 + 8)
      (by omega)
      (by rw [show (4 + (o.key.length : Int) + 8 + 4 + 4 +
        (o.issuer.length : Int) + 4 + (o.account.length : Int) + 4 + 4 +
        4).toNat =
        4 + o.key.length + 8 + 4 + 4 + o.issuer.length + 4 + o.account.length +
        4 + 4 + 4 by omega, d12]; rfl)
      (by rw [bigEndianUint64_length]; omega)
      (by rw [encodeTail_length]; push_cast; omega)
  have s13 : sliceChecked (encodeTail o)
      (4 + (o.key.length : Int) + 8 + 4 + 4 + (o.issuer.length : Int) + 4 +
        (o.account.length : Int) + 4 + 4 + 4 + 8)
      (4 + (o.key.length : Int) + 8 + 4 + 4 + (o.issuer.length : Int) + 4 +
        (o.account.length : Int) + 4 + 4 + 4 + 8 + 4) =
      .ok (bigEndianInt (hashTag o.hashFunction)) :=
    slice_drop (encodeTail o) _ []
      (4 + (o.key.length : Int) + 8 + 4 + 4 + (o.issuer.length : Int) + 4 +
        (o.account.length : Int) + 4 + 4 + 4 + 8)
      (4 + (o.key.length : Int) + 8 + 4 + 4 + (o.issuer.length : Int) + 4 +
        (o.account.length : Int) + 4 + 4 + 4 + 8 + 4)
      (by omega)
      (by rw [show (4 + (o.key.length : Int) + 8 + 4 + 4 +
        (o.issuer.length : Int) + 4 + (o.account.length : Int) + 4 + 4 + 4 +
        8).toNat =
        4 + o.key.length + 8 + 4 + 4 + o.issuer.length + 4 + o.account.length +
        4 + 4 + 4 + 8 by omega, d13]; exact (List.append_nil _).symm)
      (by rw [bigEndianInt_length]; omega)
      (by rw [encodeTail_length]; push_cast; omega)
  -- field round-trips
  have hK : intFromBigEndian (bigEndianInt (o.key.length : Int)) =
      (o.key.length : Int) :=
    intFromBigEndian_bigEndianInt _ (by omega) (by omega)
  have hI : intFromBigEndian (bigEndianInt (o.issuer.length : Int)) =
      (o.issuer.length : Int) :=
    intFromBigEndian_bigEndianInt _ (by omega) (by omega)
  have hA : intFromBigEndian (bigEndianInt (o.account.length : Int)) =
      (o.account.length : Int) :=
    intFromBigEndian_bigEndianInt _ (by omega) (by omega)
  have hDig := intFromBigEndian_bigEndianInt o.digits hd1 hd2
  have hStep := intFromBigEndian_bigEndianInt o.stepSize hst1 hst2
  have hOff := intFromBigEndian_bigEndianInt o.clientOffset hoff1 hoff2
  have hFail := intFromBigEndian_bigEndianInt o.totalVerificationFailures hfl1 hfl2
  have hTime := time_roundtrip o.lastVerificationTime ht1 ht2
  have hCnt := bigEndianUint64_getIntCounter o hcnt hcntB
  have hHash := hash_roundtrip o.hashFunction
  -- head of the decoder
  have htake4 : List.take 4 (encodeTotp o) =
      bigEndianInt ((4 + 4 + o.key.length + 8 + 4 + 4 + o.issuer.length + 4 +
        o.account.length + 4 + 4 + 4 + 8 + 4 : Nat) : Int) := by
    unfold encodeTotp
    exact List.take_left' (bigEndianInt_length _)
  have hdrop4 : List.drop 4 (encodeTotp o) = encodeTail o := by
    unfold encodeTotp
    exact List.drop_left' (bigEndianInt_length _)
  have hpad : 4 - (encodeTotp o).length = 0 := by
    rw [encodeTotp_length]; omega
  have hTot : intFromBigEndian (bigEndianInt ((4 + 4 + o.key.length + 8 + 4 +
      4 + o.issuer.length + 4 + o.account.length + 4 + 4 + 4 + 8 + 4 : Nat) :
      Int)) = ((4 + 4 + o.key.length + 8 + 4 + 4 + o.issuer.length + 4 +
      o.account.length + 4 + 4 + 4 + 8 + 4 : Nat) : Int) :=
    intFromBigEndian_bigEndianInt _ (by omega) (by omega)
  simp only [TOTPFromBytes]
  rw [htake4, hpad]
  simp only [List.replicate_zero, List.append_nil]
  rw [hTot, if_neg (show ¬ (((4 + 4 + o.key.length + 8 + 4 + 4 +
    o.issuer.length + 4 + o.account.length + 4 + 4 + 4 + 8 + 4 : Nat) : Int) -
    4 < 0) by omega)]
  rw [hdrop4]
  have hbn : ((((4 + 4 + o.key.length + 8 + 4 + 4 + o.issuer.length + 4 +
      o.account.length + 4 + 4 + 4 + 8 + 4 : Nat) : Int)) - 4).toNat =
      (encodeTail o).length := by
    rw [encodeTail_length]; omega
  rw [hbn, List.take_length, Nat.sub_self, List.replicate_zero, List.append_nil]
  rw [if_neg (show ¬ ((encodeTotp o).length ≤ 4) by
    rw [encodeTotp_length]; omega)]
  simp only [s1, s2, s3, s4, s5, s6, s7, s8, s9, s10, s11, s12, s13,
    except_ok_bind, hK, hI, hA, hDig, hStep, hOff, hFail, hTime, hCnt, hHash]

/-- Fully-populated credential used as the round-trip witness. -/
def sampleRich : Totp :=
  { key := [1, 2], counter := [0, 0, 0, 0, 0, 0, 1, 7], digits := 7,
    issuer := [65, 66], account := [67], stepSize := 27, clientOffset := -1,
    totalVerificationFailures := 2, lastVerificationTime := 1438601387,
    hashFunction := .sha512 }

/-- Witness for C3 at a concrete populated credential. -/
theorem roundtrip_c3_witness :
    TOTPFromBytes (encodeTotp sampleRich) = .ok (sampleRich, none) ∧
    ToBytes sampleRich = .ok (encodeTotp sampleRich) :=
  roundtrip_c3 sampleRich (by decide) (by decide) (by decide) (by decide)
    (by decide) (by decide) (by decide) (by decide) (by decide) (by decide)
    (by decide) (by decide) (by decide)

end Twofactor
